import Mathlib

/-!
# Verification of `webpack-http-server`

A shallow embedding, in Lean 4, of the core logic of the
`webpack-http-server` repository (`src/WebpackHttpServer.ts` and
`src/middleware/withMemoryFs.ts`), together with proofs and refutations of
the specification's claims about it.

Modelling conventions:
* The webpack `Stats` object is opaque to the server logic, so it is
  modelled by an abstract token (`Nat`).
* JavaScript `Map` objects are modelled by association lists with
  first-match lookup; `Map.prototype.set` is modelled by consing (the most
  recent binding wins on lookup, as in the original).
* Thrown errors / rejected promises are modelled with `Except`; operations
  that mutate server state before possibly throwing return the new state
  together with the `Except` outcome, so partial mutation is observable.
* Node's `path.join` (POSIX flavour) is modelled faithfully, including its
  normalization of `.` and `..` segments, since the asset middleware's
  behaviour depends on it.
-/

namespace WebpackHttpServerModel

/-- The errors the server code can surface.  `invariant(...)` failures from
`outvariant` are split by the role the spec's taxonomy gives them:
`illegalState` for the `Compilation` state guards, `precondition` for the
server accessors (`serverUrl`, `close`).  `buildError` carries the
compiler's diagnostics (opaque token). -/
inductive ServerError where
  | illegalState
  | precondition
  | buildError (diagnostics : Nat)
deriving DecidableEq

/-- `export type CompilationState = 'active' | 'disposed'` -/
inductive CompilationState where
  | active
  | disposed
deriving DecidableEq

/-- One invocation of the `compiler.watch` callback in
`Compilation.compile`: webpack reports either an error / stats with errors
(`err`, carrying the diagnostics `error || stats.toJson().errors`) or a
successful build (`ok`, carrying the new stats). -/
inductive BuildEvent where
  | ok (stats : Nat)
  | err (diagnostics : Nat)
deriving DecidableEq

/-- The fields of the `Compilation` class that the claims are about:
`id`, `state`, and the optional `stats` manifest (absent until the first
successful build). -/
structure Compilation where
  id : String
  state : CompilationState
  previewRoute : String
  previewUrl : String
  stats : Option Nat
deriving DecidableEq

/-- `Compilation.createPreviewRoute`. -/
def Compilation.createPreviewRoute (compilationId : String) : String :=
  "/compilation/" ++ compilationId ++ "/"

/-- `Compilation.createPreviewUrl`: `new URL(route, serverUrl).href` for a
path-absolute route against an origin-only base URL resolves to the base
followed by the route. -/
def Compilation.createPreviewUrl (compilationId : String)
    (serverUrl : String) : String :=
  serverUrl ++ Compilation.createPreviewRoute compilationId

/-- The `Compilation` constructor: stores the freshly generated id
(`crypto.randomBytes(16).toString('hex')`, modelled as a parameter),
derives `previewRoute` and `previewUrl` from the server URL taken from the
constructor options, and sets `state` to `'active'`; `stats` starts unset.
Note: the constructor receives no entries and performs no entry
validation. -/
def Compilation.construct (newId serverUrl : String) : Compilation :=
  { id := newId
    state := .active
    previewRoute := Compilation.createPreviewRoute newId
    previewUrl := Compilation.createPreviewUrl newId serverUrl
    stats := none }

/-- The body of the `compiler.watch` callback inside `Compilation.compile`:
on `error || stats.hasErrors()` it rejects with the diagnostics and leaves
`this.stats` untouched; on success it assigns `this.stats = stats` and
resolves with the stats. -/
def watchCallback (c : Compilation) (e : BuildEvent) :
    Compilation × Except Nat Nat :=
  match e with
  | .err diagnostics => (c, .error diagnostics)
  | .ok stats => ({ c with stats := some stats }, .ok stats)

/-- The cumulative effect on a `Compilation` of a sequence of watch-mode
build completions (the callback fires once per incremental build). -/
def applyBuilds (c : Compilation) (es : List BuildEvent) : Compilation :=
  es.foldl (fun c e => (watchCallback c e).1) c

/-- The stats of the most recent successful build in a sequence of watch
callback invocations, if any: for `.ok s :: rest` it is the last success
of `rest` when one exists, and `s` otherwise; failed builds are skipped. -/
def lastSuccessStats : List BuildEvent → Option Nat
  | [] => none
  | .ok s :: rest => some ((lastSuccessStats rest).getD s)
  | .err _ :: rest => lastSuccessStats rest

/-- `Compilation.compile`, driven up to its first watch callback: the
`invariant(this.state === 'active', ...)` guard raises `IllegalStateError`
when the compilation is not active; otherwise the promise settles with the
first build event — rejecting with `BuildError` diagnostics (stats
untouched) or resolving with the first successful stats (stats stored). -/
def Compilation.compileOp (c : Compilation) (firstBuild : BuildEvent) :
    Except ServerError (Compilation × Nat) :=
  if c.state = .active then
    match watchCallback c firstBuild with
    | (c', .ok s) => .ok (c', s)
    | (_, .error diagnostics) => .error (.buildError diagnostics)
  else
    .error .illegalState

/-- `Compilation.dispose`: the `invariant(this.state === 'active', ...)`
guard raises `IllegalStateError` when already disposed; otherwise the state
transitions to `'disposed'`. -/
def Compilation.disposeOp (c : Compilation) :
    Except ServerError Compilation :=
  if c.state = .active then
    .ok { c with state := .disposed }
  else
    .error .illegalState

/-- An externally invokable operation on a `Compilation`. -/
inductive CompOp where
  | compile (firstBuild : BuildEvent)
  | dispose
deriving DecidableEq

/-- Applying an operation to a `Compilation`: a raised `IllegalStateError`
(or a rejected build) leaves the object as it was at the point of the
throw. -/
def applyOp (c : Compilation) (op : CompOp) : Compilation :=
  match op with
  | .compile e =>
    match c.compileOp e with
    | .ok (c', _) => c'
    | .error _ => c
  | .dispose =>
    match c.disposeOp with
    | .ok c' => c'
    | .error _ => c

/-- Applying a sequence of operations. -/
def applyOps (c : Compilation) (ops : List CompOp) : Compilation :=
  ops.foldl applyOp c

/-! ## Node `path.join` (POSIX) and the asset middleware -/

/-- Splitting a path string on `/` separators, character by character
(mirrors how Node's path normalization scans the joined string). -/
def splitOnSlash (s : String) : List String :=
  let step := fun (c : Char) (acc : List String × List Char) =>
    if c = '/' then (String.mk acc.2 :: acc.1, [])
    else (acc.1, c :: acc.2)
  let r := s.data.foldr step ([], [])
  String.mk r.2 :: r.1

/-- The normalization pass of Node's `path.posix.join`: empty and `.`
segments disappear; a `..` segment pops the previous real segment, or is
kept when there is nothing left to pop (relative paths may climb above
their starting point).  `stack` holds the already-processed segments in
reverse order. -/
def normalizeSegments (stack : List String) : List String → List String
  | [] => stack.reverse
  | seg :: rest =>
    if seg = "" ∨ seg = "." then
      normalizeSegments stack rest
    else if seg = ".." then
      match stack with
      | [] => normalizeSegments [".."] rest
      | top :: tl =>
        if top = ".." then normalizeSegments (".." :: stack) rest
        else normalizeSegments tl rest
    else
      normalizeSegments (seg :: stack) rest

/-- Node's `path.join(...parts)` for relative POSIX paths: concatenate the
parts with `/` and normalize `.` and `..` segments; an empty result is
`"."`. -/
def pathJoin (parts : List String) : String :=
  let segs := (parts.map splitOnSlash).flatten
  let normalized := normalizeSegments [] segs
  if normalized = [] then "." else String.intercalate ("/") normalized

/-- The in-memory filesystem (`memfs` volume): a mapping from paths to file
contents, supporting `existsSync` and `createReadStream` (modelled as
lookup). -/
structure MemoryFs where
  files : List (String × String)
deriving DecidableEq

/-- `fs.existsSync`. -/
def MemoryFs.existsSync (fs : MemoryFs) (p : String) : Bool :=
  (fs.files.lookup p).isSome

/-- What the asset middleware does with a request: pass control to the next
handler in the routing chain, or stream the named file's bytes as the
response body (the source pipes the read stream into `res` and calls
`res.end()` on the stream's `end` event). -/
inductive MiddlewareResult where
  | next
  | stream (filePath : String) (contents : String)
deriving DecidableEq

/-- `withMemoryFs(fs)` applied to a request with route params `id` and
`assetPath`: resolves `path.join('compilation', req.params.id, 'dist',
req.params.assetPath)`; if the file does not exist it calls `next()`,
otherwise it streams the file. -/
def withMemoryFs (fs : MemoryFs) (id assetPath : String) :
    MiddlewareResult :=
  let filePath := pathJoin ["compilation", id, "dist", assetPath]
  match fs.files.lookup filePath with
  | none => .next
  | some contents => .stream filePath contents

/-- The namespace prefix the spec assigns to a compilation's assets:
`compilation/<id>/dist/`. -/
def distNamespace (compilationId : String) : String :=
  "compilation/" ++ compilationId ++ "/dist/"

/-! ## The `WebpackHttpServer` class -/

/-- `CompilationOptions`: per-compilation rendering configuration. -/
structure CompilationOptions where
  markup : Option String
deriving DecidableEq

/-- `CompilationRecord`: the value type of the server's `compilations`
map. -/
structure CompilationRecord where
  entries : List String
  compilation : Compilation
  options : CompilationOptions
deriving DecidableEq

/-- The mutable fields of `WebpackHttpServer`: `server` is unset until
`listen` runs (modelled as the bound port once set), `listening` records
whether the listener is open, and `compilations` is the registry map
(association list, most recent binding first, as `Map.prototype.set` /
`Map.prototype.get`). -/
structure ServerState where
  server : Option Nat
  listening : Bool
  compilations : List (String × CompilationRecord)
deriving DecidableEq

/-- The `serverUrl` getter: `invariant(this.server, ...)` raises a
precondition error when the server was never started; otherwise it returns
`http://127.0.0.1:<port>` for the bound TCP address. -/
def ServerState.serverUrl (s : ServerState) : Except ServerError String :=
  match s.server with
  | none => .error .precondition
  | some port => .ok ("http://127.0.0.1:" ++ toString port)

/-- `listen(port, hostname)`: binds the listener and records the server
handle; the promise resolves once bound (`boundPort` is the actual port,
which for `port = 0` is an ephemeral one chosen by the OS). -/
def ServerState.listen (s : ServerState) (boundPort : Nat) : ServerState :=
  { s with server := some boundPort, listening := true }

/-- `close()`: first `this.compilations.clear()`, then
`invariant(this.server, ...)` raises a precondition error when the server
was never started; otherwise the listener is closed.  The cleared registry
survives the thrown error, so the pre-throw mutation is part of the
returned state. -/
def ServerState.close (s : ServerState) :
    ServerState × Except ServerError Unit :=
  let s1 := { s with compilations := [] }
  match s1.server with
  | none => (s1, .error .precondition)
  | some _ => ({ s1 with listening := false }, .ok ())

/-- `require.resolve('../empty-entry.js')`: the absolute path of the
package's built-in no-op entry module. -/
def emptyEntryPath : String :=
  "/node_modules/webpack-http-server/lib/empty-entry.js"

/-- The entry resolution in `WebpackHttpServer.compile`:
`entries.length === 0 ? [require.resolve('../empty-entry.js')] : entries`. -/
def resolveEntries (entries : List String) : List String :=
  if entries.length = 0 then [emptyEntryPath] else entries

/-- `WebpackHttpServer.compile(entries, options)`: resolves the entries,
constructs a `Compilation` (reading `this.serverUrl`, whose invariant can
raise first), awaits the compilation's first build, and only then inserts
the record into `this.compilations` (via `handleIncrementalBuild`).  A
rejected first build propagates to the caller with the registry untouched.
`newId` stands for the random id minted by the constructor and
`firstBuild` for the first watch-callback invocation. -/
def ServerState.compile (s : ServerState) (entries : List String)
    (options : CompilationOptions) (newId : String)
    (firstBuild : BuildEvent) :
    ServerState × Except ServerError Compilation :=
  match s.serverUrl with
  | .error e => (s, .error e)
  | .ok url =>
    let resolvedEntries := resolveEntries entries
    let compilation := Compilation.construct newId url
    match compilation.compileOp firstBuild with
    | .error e => (s, .error e)
    | .ok (c', _) =>
      ({ s with compilations :=
          (c'.id, ⟨resolvedEntries, c', options⟩) :: s.compilations },
        .ok c')

/-- The responses of the `POST /compilation` route handler. -/
inductive HttpResponse where
  | badRequest (message : String)
  | okJson (previewUrl : String)
  | errorResponse (e : ServerError)
deriving DecidableEq

/-- Node's `path.isAbsolute` for POSIX paths: non-empty and starting with
a slash (`path.length > 0 && path.charCodeAt(0) === CHAR_FORWARD_SLASH`). -/
def isAbsolutePath (p : String) : Bool :=
  match p.data with
  | [] => false
  | c :: _ => c = '/'

/-- The `POST /compilation` route handler: if any entry path is not
absolute it responds `400 'Entry path must be absolute.'` before any build
is attempted; otherwise it awaits `this.compile` and responds with the
compilation's preview URL, a rejected build surfacing as an error
response. -/
def ServerState.handleCompilationRequest (s : ServerState)
    (entry : List String) (markup : Option String) (newId : String)
    (firstBuild : BuildEvent) : ServerState × HttpResponse :=
  if !(entry.all isAbsolutePath) then
    (s, .badRequest ("Entry path must be absolute."))
  else
    match s.compile entry ⟨markup⟩ newId firstBuild with
    | (s', .ok compilation) => (s', .okJson compilation.previewUrl)
    | (s', .error e) => (s', .errorResponse e)

/-! ## `renderPreview` -/

/-- The real on-disk filesystem, as consulted by `fs.existsSync` /
`fs.readFileSync` for the markup option. -/
structure DiskFs where
  files : List (String × String)
deriving DecidableEq

/-- The `customTemplate` expression in `renderPreview`:
`markup ? (fs.existsSync(markup) ? fs.readFileSync(markup, 'utf8') :
markup) : ''`.  An absent or empty (JavaScript-falsy) markup yields the
empty string; otherwise the contents of the file at that path when it
exists, else the literal string itself. -/
def customTemplate (disk : DiskFs) (markup : Option String) : String :=
  match markup with
  | none => ""
  | some m =>
    if m = "" then ""
    else
      match disk.files.lookup m with
      | some contents => contents
      | none => m

/-- An asset URL as pushed in `renderPreview`:
`/compilation/<id>/<filename>`. -/
def assetUrl (compilationId filename : String) : String :=
  "/compilation/" ++ compilationId ++ "/" ++ filename

/-- One rendered entry list item
(`<li><a href="vscode://file{{ . }}">{{ . }}</a></li>` after template
substitution). -/
def renderEntryItem (entry : String) : String :=
  "<li><a href=\"vscode://file" ++ entry ++ "\">" ++ entry ++ "</a></li>"

/-- One rendered asset script tag
(`<script type="application/javascript" src="{{ . }}"></script>` after
template substitution). -/
def renderAssetScript (asset : String) : String :=
  "<script type=\"application/javascript\" src=\"" ++ asset
    ++ "\"></script>"

/-- The document up to and including the rendered entry list (template
whitespace elided). -/
def previewDocBeforeCustom (entries : List String) : String :=
  "<html><head><title>Preview</title></head><body><h2>Preview</h2>"
    ++ String.join (entries.map renderEntryItem)

/-- The rendered asset scripts and the document tail (template whitespace
elided). -/
def previewDocAfterCustom (assets : List String) : String :=
  String.join (assets.map renderAssetScript) ++ "</body></html"

/-- The rendered preview document for a compilation that has stats: the
entry list, then the custom template, then one script per asset emitted by
any chunk (`for chunk of chunks: for filename of chunk.files`), scoped
under the compilation's URL prefix.  Mustache is treated as the
fill-placeholders utility it is; template whitespace is elided. -/
def renderPreviewDoc (disk : DiskFs) (compilationId : String)
    (entries : List String) (chunkFiles : List (List String))
    (markup : Option String) : String :=
  let assets := chunkFiles.flatten.map (assetUrl compilationId)
  previewDocBeforeCustom entries
    ++ customTemplate disk markup
    ++ previewDocAfterCustom assets

/-- `renderPreview(compilationId)` for a registered record: when the
compilation has no stats yet it returns the `No webpack stats found`
message; otherwise the rendered document.  `statsEntries` and `chunkFiles`
stand for the data `renderPreview` reads out of the opaque webpack stats
object (`stats.compilation.entries.get('main').dependencies[*].request`
and `stats.compilation.chunks[*].files`). -/
def renderPreview (disk : DiskFs) (record : CompilationRecord)
    (statsEntries : List String) (chunkFiles : List (List String)) :
    String :=
  match record.compilation.stats with
  | none =>
    "No webpack stats found for compilation \""
      ++ record.compilation.id ++ "\""
  | some _ =>
    renderPreviewDoc disk record.compilation.id statsEntries chunkFiles
      record.options.markup

/-! ## Concrete instances used by the witnesses -/

/-- A server that has completed `listen` on port 8080 with an empty
registry. -/
def demoServer : ServerState :=
  { server := some 8080, listening := true, compilations := [] }

/-- An in-memory volume holding one built asset for compilation `A`. -/
def demoFs : MemoryFs :=
  ⟨[("compilation/A/dist/main.js", "bundle-code")]⟩

/-- A registry record for a compilation with id `aa`. -/
def demoRecord : CompilationRecord :=
  ⟨[("/a.js")],
    Compilation.construct ("aa") ("http://127.0.0.1:8080"), ⟨none⟩⟩

/-- A server that was never started but holds a (hypothetical) registry
entry. -/
def demoStopped : ServerState :=
  { server := none, listening := false,
    compilations := [(("aa"), demoRecord)] }

/-- A second never-started server with a non-empty registry. -/
def demoStoppedB : ServerState :=
  { server := none, listening := false,
    compilations := [(("bb"), demoRecord)] }

/-- A disk filesystem holding one markup template file. -/
def demoDisk : DiskFs :=
  ⟨[(("/tpl.html"), ("<b>T</b>"))]⟩

/-- An already-disposed compilation. -/
def demoDisposed : Compilation :=
  { id := ("dd"), state := .disposed
    previewRoute := ("/compilation/dd/")
    previewUrl := ("http://127.0.0.1:8080/compilation/dd/")
    stats := none }

/-- A freshly constructed (active) compilation. -/
def demoActive : Compilation :=
  Compilation.construct ("aa") ("http://127.0.0.1:8080")

/-! ## Helper lemmas -/

/-- The stored stats after a sequence of watch callbacks equal the most
recent successful build's stats, or the previous value when the sequence
contains no success. -/
theorem applyBuilds_stats_eq (c : Compilation) (es : List BuildEvent) :
    (applyBuilds c es).stats =
      match lastSuccessStats es with
      | some s => some s
      | none => c.stats := by
  induction es generalizing c with
  | nil => rfl
  | cons e rest ih =>
    cases e with
    | ok s =>
      have h1 : applyBuilds c (.ok s :: rest)
          = applyBuilds { c with stats := some s } rest := rfl
      rw [h1, ih]
      cases hr : lastSuccessStats rest <;> simp [lastSuccessStats, hr]
    | err d =>
      have h1 : applyBuilds c (.err d :: rest) = applyBuilds c rest := rfl
      rw [h1, ih]
      simp [lastSuccessStats]

/-- A single operation cannot reactivate a disposed compilation. -/
theorem applyOp_disposed (c : Compilation) (op : CompOp)
    (h : c.state = .disposed) : (applyOp c op).state = .disposed := by
  cases op with
  | compile e => simp [applyOp, Compilation.compileOp, h]
  | dispose => simp [applyOp, Compilation.disposeOp, h]

/-- No sequence of operations reactivates a disposed compilation. -/
theorem applyOps_disposed (c : Compilation) (ops : List CompOp)
    (h : c.state = .disposed) : (applyOps c ops).state = .disposed := by
  induction ops generalizing c with
  | nil => exact h
  | cons op rest ih =>
    have h1 : applyOps c (op :: rest) = applyOps (applyOp c op) rest := rfl
    rw [h1]
    exact ih _ (applyOp_disposed c op h)

/-- Evaluation of `WebpackHttpServer.compile` on a running server when the
first build succeeds: the record is inserted and the compilation (with its
stats stored) is returned. -/
theorem compile_ok_eq (s : ServerState) (entries : List String)
    (options : CompilationOptions) (newId : String) (st port : Nat)
    (hs : s.server = some port) :
    s.compile entries options newId (.ok st) =
      ({ s with compilations :=
          (newId,
            ⟨resolveEntries entries,
              { id := newId, state := .active
                previewRoute := Compilation.createPreviewRoute newId
                previewUrl := Compilation.createPreviewUrl newId
                  ("http://127.0.0.1:" ++ toString port)
                stats := some st },
              options⟩) :: s.compilations },
        .ok
          { id := newId, state := .active
            previewRoute := Compilation.createPreviewRoute newId
            previewUrl := Compilation.createPreviewUrl newId
              ("http://127.0.0.1:" ++ toString port)
            stats := some st }) := by
  simp [ServerState.compile, ServerState.serverUrl, hs,
    Compilation.compileOp, Compilation.construct, watchCallback]

/-- Evaluation of `WebpackHttpServer.compile` on a running server when the
first build fails: the rejection propagates and the state — in particular
the registry — is exactly the old one. -/
theorem compile_err_eq (s : ServerState) (entries : List String)
    (options : CompilationOptions) (newId : String) (d port : Nat)
    (hs : s.server = some port) :
    s.compile entries options newId (.err d)
      = (s, .error (.buildError d)) := by
  simp [ServerState.compile, ServerState.serverUrl, hs,
    Compilation.compileOp, Compilation.construct, watchCallback]

/-! ## The claims -/

/-- C1 (registration atomicity): for a compilation request against a
running server with a fresh id, a successful first build returns the
compilation and makes its id observable via registry lookup, while a
failed first build propagates the build error to the caller, leaves the
server state (hence the registry) untouched, and leaves nothing to look up
under that id. -/
theorem registration_atomicity (s : ServerState) (entries : List String)
    (options : CompilationOptions) (newId : String) (port : Nat)
    (hs : s.server = some port)
    (hfresh : s.compilations.lookup newId = none) :
    (∀ st : Nat, ∃ c',
        (s.compile entries options newId (.ok st)).2 = .ok c'
        ∧ ((s.compile entries options newId
              (.ok st)).1.compilations.lookup newId).isSome = true)
    ∧ (∀ d : Nat,
        (s.compile entries options newId (.err d)).2
            = .error (.buildError d)
        ∧ (s.compile entries options newId (.err d)).1 = s
        ∧ ((s.compile entries options newId
              (.err d)).1.compilations.lookup newId) = none) := by
  constructor
  · intro st
    rw [compile_ok_eq s entries options newId st port hs]
    exact ⟨_, rfl, by simp [List.lookup]⟩
  · intro d
    rw [compile_err_eq s entries options newId d port hs]
    exact ⟨rfl, rfl, hfresh⟩

/-- Witness for C1: on the running demo server, a compilation request with
a successful first build registers its id. -/
theorem registration_atomicity_witness :
    ∃ c',
      (demoServer.compile [("/index.js")] ⟨none⟩ ("beef") (.ok 5)).2
          = .ok c'
      ∧ ((demoServer.compile [("/index.js")] ⟨none⟩ ("beef")
            (.ok 5)).1.compilations.lookup ("beef")).isSome = true :=
  (registration_atomicity demoServer [("/index.js")] ⟨none⟩ ("beef") 8080
    rfl rfl).1 5

/-- C2, failing input: with `assetPath` containing traversal segments
(reachable over HTTP as `GET /compilation/A/..%2F..%2FB%2Fdist%2Fsecret.js`,
since Express matches the encoded segment and URL-decodes the route
parameter), the middleware resolves the request made under compilation
`A`'s route to compilation `B`'s namespace and streams `B`'s asset —
refuting the claimed namespace isolation. -/
theorem namespace_isolation_failing_input :
    pathJoin [("compilation"), ("A"), ("dist"), ("../../B/dist/secret.js")]
        = distNamespace ("B") ++ ("secret.js")
    ∧ withMemoryFs
        ⟨[(distNamespace ("B") ++ ("secret.js"), ("Bsecret"))]⟩
        ("A") ("../../B/dist/secret.js")
        = .stream (distNamespace ("B") ++ ("secret.js")) ("Bsecret")
    ∧ ("A" : String) ≠ ("B") :=
  ⟨rfl, rfl, by decide⟩

/-- C3 (manifest monotonicity and failure atomicity): after any sequence
of watch-mode build completions the stored stats equal the most recent
successful build's output (or the previous value when no build in the
sequence succeeded), and a failing completion surfaces the diagnostics
while leaving the compilation — in particular its stats — unchanged. -/
theorem manifest_monotonicity (c : Compilation) (es : List BuildEvent)
    (d : Nat) :
    ((applyBuilds c es).stats =
      match lastSuccessStats es with
      | some s => some s
      | none => c.stats)
    ∧ watchCallback c (.err d) = (c, .error d) :=
  ⟨applyBuilds_stats_eq c es, rfl⟩

/-- C4 (state-machine guards): `compile` raises `IllegalStateError`
exactly when the state is not `active`; `dispose` raises
`IllegalStateError` exactly when the state is already `disposed`;
`dispose` on an active compilation transitions it to `disposed`; and
`disposed` is terminal under any sequence of further operations. -/
theorem compilation_state_guards (c : Compilation) (e : BuildEvent) :
    (c.compileOp e = .error .illegalState ↔ c.state ≠ .active)
    ∧ (c.disposeOp = .error .illegalState ↔ c.state = .disposed)
    ∧ (c.state = .active → c.disposeOp = .ok { c with state := .disposed })
    ∧ (∀ ops : List CompOp, c.state = .disposed →
        (applyOps c ops).state = .disposed) := by
  refine ⟨?_, ?_, ?_, fun ops h => applyOps_disposed c ops h⟩
  · cases hs : c.state with
    | active =>
      cases e with
      | ok s => simp [Compilation.compileOp, hs, watchCallback]
      | err d => simp [Compilation.compileOp, hs, watchCallback]
    | disposed => simp [Compilation.compileOp, hs]
  · cases hs : c.state with
    | active => simp [Compilation.disposeOp, hs]
    | disposed => simp [Compilation.disposeOp, hs]
  · intro h
    simp [Compilation.disposeOp, h]

/-- Witness for C4: disposing the active demo compilation succeeds and
transitions it to `disposed`; operations on a disposed compilation never
reactivate it. -/
theorem compilation_state_guards_witness :
    (demoActive.disposeOp = .ok { demoActive with state := .disposed })
    ∧ (applyOps demoDisposed [.compile (.ok 1), .dispose]).state
        = .disposed :=
  ⟨(compilation_state_guards demoActive (.ok 1)).2.2.1 rfl,
    (compilation_state_guards demoDisposed (.ok 1)).2.2.2
      [.compile (.ok 1), .dispose] rfl⟩

/-- C5, counterexample: the claim that the `Compilation` constructor (via
the server's compile path) rejects non-absolute entries is false — the
constructor performs no entry validation, so `compile` with the relative
entry `relative.js` succeeds instead of failing with `InvalidEntryError`. -/
theorem entry_validation_counterexample :
    isAbsolutePath ("relative.js") = false
    ∧ (demoServer.compile [("relative.js")] ⟨none⟩ ("cafe") (.ok 7)).2
        = .ok
          { id := ("cafe"), state := .active
            previewRoute := Compilation.createPreviewRoute ("cafe")
            previewUrl := Compilation.createPreviewUrl ("cafe")
              ("http://127.0.0.1:8080")
            stats := some 7 } := by
  refine ⟨rfl, ?_⟩
  rw [compile_ok_eq demoServer _ _ _ 7 8080 rfl]
  rfl

/-- C5, amended: entry validation happens only at the HTTP boundary — the
`POST /compilation` handler responds `400 'Entry path must be absolute.'`
(without building or registering anything) whenever some entry is not
absolute, while the `Compilation` constructor and the server's `compile`
method perform no entry validation and accept non-absolute entries. -/
theorem entry_validation_boundary_only (s sAlt : ServerState)
    (entry : List String) (markup : Option String) (newId : String)
    (e : BuildEvent) (port st : Nat)
    (h : entry.all isAbsolutePath = false) (hs : sAlt.server = some port) :
    s.handleCompilationRequest entry markup newId e
        = (s, .badRequest ("Entry path must be absolute."))
    ∧ ∃ c', (sAlt.compile entry ⟨markup⟩ newId (.ok st)).2 = .ok c' := by
  constructor
  · simp [ServerState.handleCompilationRequest, h]
  · rw [compile_ok_eq sAlt entry ⟨markup⟩ newId st port hs]
    exact ⟨_, rfl⟩

/-- Witness for the amended C5: the relative entry `relative.js` is
rejected with a 400 by the HTTP handler, yet accepted by the server's
`compile` method. -/
theorem entry_validation_boundary_only_witness :
    demoServer.handleCompilationRequest [("relative.js")] none ("cafe")
        (.ok 1)
      = (demoServer, .badRequest ("Entry path must be absolute."))
    ∧ ∃ c',
        (demoServer.compile [("relative.js")] ⟨none⟩ ("cafe")
          (.ok 3)).2 = .ok c' :=
  entry_validation_boundary_only demoServer demoServer [("relative.js")]
    none ("cafe") (.ok 1) 8080 3 (by decide) rfl

/-- C6 (empty-entry placeholder): an empty entry list is replaced by the
built-in no-op placeholder entry while a non-empty list is used unchanged;
a `POST /compilation` request with an empty entry list succeeds, and the
registered record carries exactly the placeholder entry. -/
theorem empty_entry_placeholder (s : ServerState) (entries : List String)
    (markup : Option String) (newId : String) (st port : Nat)
    (hs : s.server = some port) (hne : entries ≠ []) :
    resolveEntries [] = [emptyEntryPath]
    ∧ resolveEntries entries = entries
    ∧ ∃ url c',
        (s.handleCompilationRequest [] markup newId (.ok st)).2
            = .okJson url
        ∧ ((s.handleCompilationRequest [] markup newId
              (.ok st)).1.compilations.lookup newId)
            = some ⟨[emptyEntryPath], c', ⟨markup⟩⟩ := by
  have hc := compile_ok_eq s [] ⟨markup⟩ newId st port hs
  refine ⟨rfl, ?_, ?_⟩
  · simp [resolveEntries, List.length_eq_zero, hne]
  · simp only [ServerState.handleCompilationRequest, List.all_nil,
      Bool.not_true, Bool.false_eq_true, if_false, hc]
    refine ⟨_,
      { id := newId, state := .active
        previewRoute := Compilation.createPreviewRoute newId
        previewUrl := Compilation.createPreviewUrl newId
          ("http://127.0.0.1:" ++ toString port)
        stats := some st }, rfl, ?_⟩
    simp [List.lookup, resolveEntries]

/-- Witness for C6: a `POST /compilation` with an empty entry list on the
demo server succeeds and registers the placeholder entry. -/
theorem empty_entry_placeholder_witness :
    resolveEntries [] = [emptyEntryPath]
    ∧ resolveEntries [("/x.js")] = [("/x.js")]
    ∧ ∃ url c',
        (demoServer.handleCompilationRequest [] none ("feed")
            (.ok 3)).2 = .okJson url
        ∧ ((demoServer.handleCompilationRequest [] none ("feed")
              (.ok 3)).1.compilations.lookup ("feed"))
            = some ⟨[emptyEntryPath], c', ⟨none⟩⟩ :=
  empty_entry_placeholder demoServer [("/x.js")] none ("feed") 3 8080 rfl
    (by decide)

/-- C7 (asset-route pass-through): when the resolved path is absent from
the in-memory store the middleware yields control to the next handler
(there is no not-found response in its behaviour), and when present it
streams the stored bytes for the resolved path. -/
theorem asset_route_pass_through (fs : MemoryFs) (id assetPath : String) :
    (fs.files.lookup (pathJoin [("compilation"), id, ("dist"), assetPath])
        = none →
      withMemoryFs fs id assetPath = .next)
    ∧ ∀ contents,
        fs.files.lookup
            (pathJoin [("compilation"), id, ("dist"), assetPath])
          = some contents →
        withMemoryFs fs id assetPath
          = .stream (pathJoin [("compilation"), id, ("dist"), assetPath])
              contents := by
  constructor
  · intro h
    simp [withMemoryFs, h]
  · intro contents h
    simp [withMemoryFs, h]

/-- Witness for C7: the demo volume's asset is streamed, while a missing
asset path falls through to the next handler. -/
theorem asset_route_pass_through_witness :
    withMemoryFs demoFs ("A") ("main.js")
        = .stream ("compilation/A/dist/main.js") ("bundle-code")
    ∧ withMemoryFs demoFs ("A") ("missing.js") = .next :=
  ⟨(asset_route_pass_through demoFs ("A") ("main.js")).2
      ("bundle-code") rfl,
    (asset_route_pass_through demoFs ("A") ("missing.js")).1 rfl⟩

/-- C8 (server lifecycle preconditions): on a never-started server both
`serverUrl` and `close` fail with a precondition error; after `listen`
resolves, `serverUrl` returns the bound address and `close` empties the
registry, succeeds, and closes the listener. -/
theorem server_lifecycle_preconditions (s : ServerState) (port : Nat)
    (h : s.server = none) :
    s.serverUrl = .error .precondition
    ∧ (s.close).2 = .error .precondition
    ∧ (s.listen port).serverUrl
        = .ok ("http://127.0.0.1:" ++ toString port)
    ∧ ((s.listen port).close).1.compilations = []
    ∧ ((s.listen port).close).2 = .ok ()
    ∧ ((s.listen port).close).1.listening = false := by
  refine ⟨?_, ?_, ?_, ?_, ?_, ?_⟩
  · simp [ServerState.serverUrl, h]
  · simp [ServerState.close, h]
  · simp [ServerState.listen, ServerState.serverUrl]
  · simp [ServerState.listen, ServerState.close]
  · simp [ServerState.listen, ServerState.close]
  · simp [ServerState.listen, ServerState.close]

/-- Witness for C8: the never-started demo server rejects `serverUrl` and
`close`; once listening on 8080 it reports its address and closes
cleanly. -/
theorem server_lifecycle_preconditions_witness :
    demoStopped.serverUrl = .error .precondition
    ∧ (demoStopped.close).2 = .error .precondition
    ∧ (demoStopped.listen 8080).serverUrl
        = .ok ("http://127.0.0.1:" ++ toString 8080)
    ∧ ((demoStopped.listen 8080).close).1.compilations = []
    ∧ ((demoStopped.listen 8080).close).2 = .ok ()
    ∧ ((demoStopped.listen 8080).close).1.listening = false :=
  server_lifecycle_preconditions demoStopped 8080 rfl

/-- C9 (markup path/string polymorphism): a markup value naming an
existing file is replaced by that file's contents, a markup value that is
not an existing path is inlined verbatim, an absent markup contributes
nothing, and in every case the custom template sits between the rendered
entry list and the rendered asset script tags. -/
theorem markup_path_string_polymorphism (disk : DiskFs)
    (m contents : String) (markup : Option String)
    (compilationId : String) (entries : List String)
    (chunkFiles : List (List String)) :
    (m ≠ ("") → disk.files.lookup m = some contents →
        customTemplate disk (some m) = contents)
    ∧ (disk.files.lookup m = none → customTemplate disk (some m) = m)
    ∧ customTemplate disk none = ("")
    ∧ renderPreviewDoc disk compilationId entries chunkFiles markup
        = previewDocBeforeCustom entries
          ++ customTemplate disk markup
          ++ previewDocAfterCustom
              (chunkFiles.flatten.map (assetUrl compilationId)) := by
  refine ⟨?_, ?_, rfl, rfl⟩
  · intro hm hl
    simp [customTemplate, hm, hl]
  · intro hl
    by_cases hm : m = ("")
    · subst hm
      simp [customTemplate]
    · simp [customTemplate, hm, hl]

/-- Witness for C9: on the demo disk, the markup `/tpl.html` loads the
file contents, a literal snippet stays verbatim, and absent markup yields
the empty template. -/
theorem markup_path_string_polymorphism_witness :
    customTemplate demoDisk (some ("/tpl.html")) = ("<b>T</b>")
    ∧ customTemplate demoDisk (some ("<p>lit</p>")) = ("<p>lit</p>")
    ∧ customTemplate demoDisk none = ("") :=
  ⟨(markup_path_string_polymorphism demoDisk ("/tpl.html") ("<b>T</b>")
      none ("x") [] []).1 (by decide) rfl,
    (markup_path_string_polymorphism demoDisk ("<p>lit</p>") ("")
      none ("x") [] []).2.1 rfl,
    (markup_path_string_polymorphism demoDisk ("") ("")
      none ("x") [] []).2.2.1⟩

/-- C10 (implicit): `close()` clears the registry before checking that the
server was started, so on a never-started server the call both fails with
the precondition error and leaves the registry emptied. -/
theorem close_clears_registry_before_guard (s : ServerState)
    (h : s.server = none) :
    (s.close).1.compilations = []
    ∧ (s.close).2 = .error .precondition := by
  simp [ServerState.close, h]

/-- Witness for C10: the never-started demo server has a non-empty
registry, yet `close` empties it while failing with the precondition
error. -/
theorem close_clears_registry_before_guard_witness :
    demoStoppedB.compilations ≠ []
    ∧ (demoStoppedB.close).1.compilations = []
    ∧ (demoStoppedB.close).2 = .error .precondition :=
  ⟨by decide,
    (close_clears_registry_before_guard demoStoppedB rfl).1,
    (close_clears_registry_before_guard demoStoppedB rfl).2⟩

end WebpackHttpServerModel
